import Mathlib

/-!
Verification development for vdr-epg-tool (src/vdr-epg-tool.go), an XMLTV
to VDR EPG loader.  The Go source is shallowly embedded below: pure helper
functions become Lean functions, the SVDRP session loop becomes an explicit
state-passing step function whose wire effects are recorded in a trace, and
operations that can panic (string slicing at fixed offsets) return Option.
Machine integers are modelled as Int with the truncated division and
remainder used by Go (Int.tdiv, Int.tmod).
-/

/-- Value of a run of decimal digit characters, most significant first. -/
def digitsVal (cs : List Char) : Nat :=
  cs.foldl (fun acc c => acc * 10 + (c.toNat - 48)) 0

/-- Go strconv.Atoi with the returned error ignored, as every call site of
the source does: a fully numeric string (optional sign) parses to its value,
anything else yields 0 alongside the ignored error.  The 64-bit range
clamping of ParseInt is not modelled; no call site feeds it more digits than
fit. -/
def goAtoi (s : String) : Int :=
  match s.data with
  | [] => 0
  | '-' :: rest => if rest ≠ [] ∧ rest.all Char.isDigit then -(digitsVal rest : Int) else 0
  | '+' :: rest => if rest ≠ [] ∧ rest.all Char.isDigit then (digitsVal rest : Int) else 0
  | cs => if cs.all Char.isDigit then (digitsVal cs : Int) else 0

/-- Go string slicing s[i:j] on byte indices; an out-of-range index panics,
modelled by none.  Every string the source slices (14-digit timestamps and
SVDRP status lines) is ASCII, so byte positions coincide with character
positions. -/
def goSlice (s : String) (i j : Nat) : Option String :=
  if i ≤ j ∧ j ≤ s.data.length then some (String.mk ((s.data.drop i).take (j - i))) else none

/-- Field normalisation used by Go time.Date: push the low field into the
range [0, base) carrying into the high field, with truncated division on the
auxiliary nonnegative quantities exactly as the Go runtime does. -/
def timeNorm (hi lo base : Int) : Int × Int :=
  let p :=
    if lo < 0 then
      let n := Int.tdiv (-lo - 1) base + 1
      (hi - n, lo + n * base)
    else (hi, lo)
  if base ≤ p.2 then
    let n := Int.tdiv p.2 base
    (p.1 + n, p.2 - n * base)
  else p

/-- Days since 1970-01-01 of a proleptic Gregorian date whose month is
already normalised into 1..12 (an out-of-range day simply shifts by whole
days, as in Go time.Date, whose absolute day count this reproduces). -/
def daysFromCivil (y m d : Int) : Int :=
  let y2 := y - (if m ≤ 2 then 1 else 0)
  let era := Int.tdiv (if 0 ≤ y2 then y2 else y2 - 399) 400
  let yoe := y2 - era * 400
  let doy := Int.tdiv (153 * (m + (if 2 < m then -3 else 9)) + 2) 5 + d - 1
  let doe := yoe * 365 + Int.tdiv yoe 4 - Int.tdiv yoe 100 + doy
  era * 146097 + doe - 719468

/-- Go time.Date(year, month, day, hour, min, sec, 0, time.UTC).Unix():
normalise seconds into minutes, minutes into hours, hours into days and the
month into the year as the Go runtime does, then count seconds since the
Unix epoch. -/
def timeDateUnix (year month day hour min sec : Int) : Int :=
  let ms := timeNorm min sec 60
  let hm := timeNorm hour ms.1 60
  let dh := timeNorm day hm.1 24
  let ym := timeNorm year (month - 1) 12
  daysFromCivil ym.1 (ym.2 + 1) 1 * 86400 + (dh.1 - 1) * 86400
    + dh.2 * 3600 + hm.2 * 60 + ms.2

/-- The fixed-width slicing and parsing of one 14-digit YYYYMMDDHHMMSS
timestamp performed inside vdr_epg_load (source lines 482-502): six
unguarded slices d[0:4] .. d[12:14] each feeding strconv.Atoi, then
time.Date(..).Unix().  A slice out of range panics, modelled by none. -/
def parseTimestampUnix (d : String) : Option Int := do
  let s1 ← goSlice d 0 4
  let s2 ← goSlice d 4 6
  let s3 ← goSlice d 6 8
  let s4 ← goSlice d 8 10
  let s5 ← goSlice d 10 12
  let s6 ← goSlice d 12 14
  pure (timeDateUnix (goAtoi s1) (goAtoi s2) (goAtoi s3) (goAtoi s4) (goAtoi s5) (goAtoi s6))

/-- SVDRP status code 220, VDR service ready. -/
def VDR_SC_SERVICE_READY : Nat := 220

/-- SVDRP status code 221, VDR service closing transmission channel. -/
def VDR_SC_SERVICE_CLOSING : Nat := 221

/-- SVDRP status code 250, requested VDR action okay, completed. -/
def VDR_SC_ACTION_OK : Nat := 250

/-- SVDRP status code 354, start sending EPG data. -/
def VDR_SC_EPG_START_SENDING : Nat := 354

/-- XMLTV channel element: id attribute plus display-name children. -/
structure Channel where
  Id : String
  Names : List String
deriving DecidableEq

/-- XMLTV programme element as decoded by the source. -/
structure Programme where
  Start : String
  Stop : String
  Channel : String
  Title : String
  SubTitle : String
  Description : String
  Credits : String
  Date : String
  Categories : List String
  Rating : String
deriving DecidableEq

/-- One VDR channels.conf descriptor. -/
structure VDRChannel where
  Name : String
  Aliases : List String
  CallSign : String
  Number : String
  Frequency : String
  Param : String
  Source : String
  Srate : String
  VPID : String
  APID : String
  TPID : String
  CondAccess : String
  ServiceId : String
  NetworkId : String
  TransportId : String
  RadioId : String
deriving DecidableEq

/-- One translated guide event, as handed over the comm channel. -/
structure VDREPGEvent where
  CChannel : String
  ChannelCallSign : String
  EEventId : Nat
  EEStartTime : String
  EEStopTime : String
  EEDuration : String
  TTitle : String
  SSubTitle : String
  DDescription : String
  GGenres : List Nat
  RRating : Nat
deriving DecidableEq

/-- The category-name to genre-code table of the source (var genres), an
exact-match map; a Go map literal, embedded as an association list with the
same distinct keys. -/
def genres : List (String × Nat) := [
  ("Movie/Drama", 0x10),
  ("Action", 0x10),
  ("Detective/Thriller", 0x11),
  ("Adventure/Western/War", 0x12),
  ("Science Fiction/Fantasy/Horror", 0x13),
  ("Comedy", 0x14),
  ("Soap/Melodrama/Folkloric", 0x15),
  ("Romance", 0x16),
  ("Serious/Classical/Religious/Historical Movie/Drama", 0x17),
  ("Adult Movie/Drama", 0x18),
  ("Adults only", 0x18),
  ("Comedy-drama", 0x14),
  ("Crime drama", 0x10),
  ("Drama", 0x10),
  ("Film", 0x10),
  ("Science fiction", 0x13),
  ("Soap", 0x15),
  ("Standup", 0x14),
  ("News/Current Affairs", 0x20),
  ("News/Weather Report", 0x21),
  ("News Magazine", 0x22),
  ("Documentary", 0x23),
  ("Discussion/Inverview/Debate", 0x24),
  ("Weather", 0x21),
  ("Show/Game Show", 0x30),
  ("Game Show/Quiz/Contest", 0x31),
  ("Variety Show", 0x32),
  ("Talk Show", 0x33),
  ("Sports", 0x40),
  ("Action sports", 0x40),
  ("Special Event", 0x41),
  ("Sport Magazine", 0x42),
  ("Football/Soccer", 0x43),
  ("Tennis/Squash", 0x44),
  ("Team Sports", 0x45),
  ("Athletics", 0x46),
  ("Motor Sport", 0x47),
  ("Water Sport", 0x48),
  ("Winter Sports", 0x49),
  ("Equestrian", 0x4A),
  ("Martial Sports", 0x4B),
  ("Archery", 0x46),
  ("Baseball", 0x45),
  ("Basketball", 0x45),
  ("Bicycle", 0x40),
  ("Boxing", 0x40),
  ("Billiards", 0x40),
  ("Children's/Youth Programme", 0x50),
  ("Pre-school Children's Programme", 0x51),
  ("Entertainment Programme for 6 to 14", 0x52),
  ("Entertainment Programme for 10 to 16", 0x53),
  ("Informational/Educational/School Programme", 0x54),
  ("Cartoons/Puppets", 0x55),
  ("Paid Programming", 0x54),
  ("Music/Ballet/Dance", 0x60),
  ("Rock/Pop", 0x61),
  ("Serious/Classical Music", 0x62),
  ("Folk/Tradional Music", 0x63),
  ("Jazz", 0x64),
  ("Musical/Opera", 0x65),
  ("Ballet", 0x66),
  ("Arts/Culture", 0x70),
  ("Performing Arts", 0x71),
  ("Fine Arts", 0x72),
  ("Religion", 0x73),
  ("Religous", 0x73),
  ("Popular Culture/Traditional Arts", 0x74),
  ("Literature", 0x75),
  ("Film/Cinema", 0x76),
  ("Experimental Film/Video", 0x77),
  ("Broadcasting/Press", 0x78),
  ("New Media", 0x79),
  ("Arts/Culture Magazine", 0x7A),
  ("Fashion", 0x7B),
  ("Arts/crafts", 0x70),
  ("Social/Political/Economics", 0x80),
  ("Magazine/Report/Documentary", 0x81),
  ("Economics/Social Advisory", 0x82),
  ("Remarkable People", 0x83),
  ("Education/Science/Factual", 0x90),
  ("Nature/Animals/Environment", 0x91),
  ("Technology/Natural Sciences", 0x92),
  ("Medicine/Physiology/Psychology", 0x93),
  ("Foreign Countries/Expeditions", 0x94),
  ("Social/Spiritual Sciences", 0x95),
  ("Further Education", 0x96),
  ("Languages", 0x97),
  ("Leisure/Hobbies", 0xA0),
  ("Tourism/Travel", 0xA1),
  ("Handicraft", 0xA2),
  ("Motoring", 0xA3),
  ("Fitness & Health", 0xA4),
  ("Cooking", 0xA5),
  ("Advertisement/Shopping", 0xA6),
  ("Gardening", 0xA7),
  ("Aerobics", 0xA4),
  ("Original Language", 0xB1),
  ("Black & White", 0xB2),
  ("Unpublished", 0xB3),
  ("Live Broadcast", 0xB4),
  ("Children", 0x50),
  ("Animated", 0x50),
  ("Crime/Mystery", 0x11),
  ("Educational", 0x90),
  ("Science/Nature", 0x91),
  ("Adult", 0x18),
  ("Music", 0x60),
  ("News", 0x20),
  ("Talk", 0x33),
  ("Unknown", 0x0),
  ("Anime", 0x50),
  ("Animation", 0x50)]

/-- The rating-label to rating-code table of the source (var ratings). -/
def ratings : List (String × Nat) := [
  ("TV-Y", 2),
  ("TV-Y7", 7),
  ("TV-G", 8),
  ("TV-PG", 10),
  ("TV-14", 14),
  ("TV-MA", 18)]

/-- Go map read m[k] on a string-keyed map whose values default to the zero
value when the key is absent. -/
def goMapGetNat (m : List (String × Nat)) (k : String) : Nat :=
  (m.lookup k).getD 0

/-- Go map read m[k] on the xmltvid2callsign map; absent keys give the empty
string (the Go zero value). -/
def goMapGetStr (m : List (String × String)) (k : String) : String :=
  (m.lookup k).getD ""

/-- vdr_make_channel_id of the source (lines 422-438): derive the VDR
channel identifier from a descriptor.  Atoi of the frequency with the error
discarded; the frequency is scaled by 1000 when Source is A or T; a nonzero
TransportId or NetworkId overrides the result with the alternate,
frequency-free form. -/
def vdr_make_channel_id (c : VDRChannel) : String :=
  let fq := goAtoi c.Frequency
  let fq := if c.Source = "A" ∨ c.Source = "T" then Int.tdiv fq 1000 else fq
  let i := c.Source ++ "-" ++ c.NetworkId ++ "-" ++ toString fq ++ "-" ++ c.ServiceId
  if c.TransportId ≠ "0" ∨ c.NetworkId ≠ "0" then
    c.Source ++ "-" ++ c.NetworkId ++ "-" ++ c.TransportId ++ "-" ++ c.ServiceId
  else i

/-- The channel-identifier derivation as the specification words it, for
comparison with vdr_make_channel_id: freq is the integer value of Frequency,
divided by 1000 with truncation exactly when Source is A or T; the base form
carries the frequency; whenever TransportId or NetworkId differs from the
string 0 the alternate frequency-free form is returned instead. -/
def spec_identifier (c : VDRChannel) : String :=
  if c.TransportId ≠ "0" ∨ c.NetworkId ≠ "0" then
    c.Source ++ "-" ++ c.NetworkId ++ "-" ++ c.TransportId ++ "-" ++ c.ServiceId
  else
    let fq := goAtoi c.Frequency
    let fq := if c.Source = "A" ∨ c.Source = "T" then Int.tdiv fq 1000 else fq
    c.Source ++ "-" ++ c.NetworkId ++ "-" ++ toString fq ++ "-" ++ c.ServiceId

/-- One wire-level effect of the session: a raw TCP write (svdrp_write, the
trailing CRLF already appended as that helper does), a blocking wait for one
reply line with the given expected status code (svdrp_wait_for_reply),
closing the connection, or signalling completion on the netdone channel. -/
inductive SvdrpAct where
  | write (s : String)
  | waitReply (code : Nat)
  | closeConn
  | signalDone
deriving DecidableEq

/-- Mutable state carried across iterations of the vdr_epg_load loop: the
call sign of the currently open channel block (empty string when none, as in
the source) and the per-channel event counter map nchan. -/
structure SessionState where
  cur_channel : String
  nchan : List (String × Nat)
deriving DecidableEq

/-- The state at entry of the loop: cur_channel is the empty string and
nchan the empty map. -/
def initialSessionState : SessionState :=
  { cur_channel := "", nchan := [] }

/-- Go map write m[k] = v on a string-keyed counter map, updating the first
matching entry in place or appending a fresh one. -/
def mapSetNat : List (String × Nat) → String → Nat → List (String × Nat)
  | [], k, v => [(k, v)]
  | (k0, v0) :: rest, k, v =>
    if k0 = k then (k, v) :: rest else (k0, v0) :: mapSetNat rest k v

/-- Go statement nchan[k]++ with the zero-value default of a missing key. -/
def nchanBump (m : List (String × Nat)) (k : String) : List (String × Nat) :=
  mapSetNat m k ((m.lookup k).getD 0 + 1)

/-- The close sequence sent when a channel block ends: the cancel line c,
then the end-of-block line . awaiting the action-OK reply (source lines
471-472 and 531-532). -/
def closeSeq : List SvdrpAct :=
  [SvdrpAct.write "c\r\n", SvdrpAct.write ".\r\n", SvdrpAct.waitReply VDR_SC_ACTION_OK]

/-- The open handshake of a channel block: the PUTE command awaiting the
start-sending reply (source line 476). -/
def openSeq : List SvdrpAct :=
  [SvdrpAct.write "PUTE\r\n", SvdrpAct.waitReply VDR_SC_EPG_START_SENDING]

/-- The string of space-terminated genre codes: g := g + FormatInt(v) + one
space, for each genre in order (source lines 510-513). -/
def genreString (gs : List Nat) : String :=
  gs.foldl (fun g v => g ++ toString v ++ " ") ""

/-- The event-body lines appended to cmd for one event (source lines
515-523): the E header with event id, start as Unix seconds, duration and
flag 0; the title; the subtitle only when non-empty; the description; the
genre list; the rating; and the end-of-event marker e. -/
def eventLines (eid dtsU du : Int) (e : VDREPGEvent) : String :=
  "E " ++ toString eid ++ " " ++ toString dtsU ++ " " ++ toString du ++ " 0\r\n"
    ++ ("T " ++ e.TTitle ++ "\r\n")
    ++ (if e.SSubTitle ≠ "" then "S " ++ e.SSubTitle ++ "\r\n" else "")
    ++ ("D " ++ e.DDescription ++ "\r\n")
    ++ ("G " ++ genreString e.GGenres ++ "\r\n")
    ++ ("R " ++ toString e.RRating ++ "\r\n")
    ++ "e"

/-- The event id computed on source line 506: dts.Unix() / 60 % 0xffff with
the truncated division and remainder of Go int64 arithmetic.  Note that
0xffff is 65535. -/
def session_event_id (dtsUnix : Int) : Int :=
  Int.tmod (Int.tdiv dtsUnix 60) 0xffff

/-- Largest value of the Go time.Duration int64 nanosecond count. -/
def maxDuration : Int := 9223372036854775807

/-- Smallest value of the Go time.Duration int64 nanosecond count. -/
def minDuration : Int := -9223372036854775808

/-- Go t.Sub(u) on two second-precision instants given as Unix seconds: the
difference in nanoseconds, saturated at the time.Duration bounds as the Go
documentation specifies for results outside the int64 range. -/
def timeSubNs (t u : Int) : Int :=
  let d := (t - u) * 1000000000
  if d < minDuration then minDuration
  else if maxDuration < d then maxDuration
  else d

/-- Go int(d.Seconds()) on a whole-second Duration: truncation toward zero
of the nanosecond count divided by 1e9.  The float64 detour of Seconds() is
exact whenever the nanosecond count is at most 2^53 in magnitude and at the
two saturation bounds, which covers every value this development evaluates
it at. -/
def durationSecondsInt (ns : Int) : Int :=
  Int.tdiv ns 1000000000

/-- The duration written on the E line (source lines 504 and 515):
int(dte.Sub(dts).Seconds()) for start and stop instants in Unix seconds. -/
def session_duration (dtsU dteU : Int) : Int :=
  durationSecondsInt (timeSubNs dteU dtsU)

/-- One iteration of the vdr_epg_load consumer loop (source lines 458-528)
on a received event e.  An event whose call sign is not in the channel
directory is dropped with no effect (continue).  Otherwise: when a block is
open for a different call sign, the close sequence is emitted; when no
block is open or the call sign changed, the open handshake is emitted, the
C channel-header line is prefixed to cmd, cur_channel is set and its
counter bumped; then the timestamps are sliced and parsed, the body lines
are appended and cmd is written in a single svdrp_write (which adds the
final CRLF), and the counter is bumped again.  The source slices the
timestamps after the open/close writes; a panic there aborts the process,
so the whole step returns none and no partial trace is kept. -/
def vdr_epg_load_step (chans : List (String × VDRChannel)) (st : SessionState)
    (e : VDREPGEvent) : Option (List SvdrpAct × SessionState) :=
  match chans.lookup e.ChannelCallSign with
  | none => some ([], st)
  | some c =>
    match parseTimestampUnix e.EEStartTime, parseTimestampUnix e.EEStopTime with
    | some dtsU, some dteU =>
      let closeActs :=
        if st.cur_channel ≠ "" ∧ st.cur_channel ≠ e.ChannelCallSign then closeSeq else []
      let openActs :=
        if st.cur_channel = "" ∨ st.cur_channel ≠ e.ChannelCallSign then openSeq else []
      let cmd0 :=
        if st.cur_channel = "" ∨ st.cur_channel ≠ e.ChannelCallSign then
          "C " ++ vdr_make_channel_id c ++ " " ++ e.ChannelCallSign ++ "\r\n"
        else ""
      let cur1 :=
        if st.cur_channel = "" ∨ st.cur_channel ≠ e.ChannelCallSign then e.ChannelCallSign
        else st.cur_channel
      let nchan1 :=
        if st.cur_channel = "" ∨ st.cur_channel ≠ e.ChannelCallSign then nchanBump st.nchan cur1
        else st.nchan
      let du := session_duration dtsU dteU
      let eid := session_event_id dtsU
      let body := cmd0 ++ eventLines eid dtsU du e
      some (closeActs ++ openActs ++ [SvdrpAct.write (body ++ "\r\n")],
        { cur_channel := cur1, nchan := nchanBump nchan1 cur1 })
    | _, _ => none

/-- The consumer loop of vdr_epg_load over the whole queue content, in
delivery order, accumulating the wire trace. -/
def vdr_epg_load_loop (chans : List (String × VDRChannel)) :
    SessionState → List VDREPGEvent → Option (List SvdrpAct × SessionState)
  | st, [] => some ([], st)
  | st, e :: es =>
    match vdr_epg_load_step chans st e with
    | none => none
    | some (tr, st1) =>
      match vdr_epg_load_loop chans st1 es with
      | none => none
      | some (tr2, st2) => some (tr ++ tr2, st2)

/-- The connection prologue of vdr_epg_load (source lines 447-448): await
the service-ready greeting, send CLRE and await action OK. -/
def sessionPrologue : List SvdrpAct :=
  [SvdrpAct.waitReply VDR_SC_SERVICE_READY,
   SvdrpAct.write "CLRE\r\n", SvdrpAct.waitReply VDR_SC_ACTION_OK]

/-- The end-of-input tail of vdr_epg_load (source lines 531-541), emitted
unconditionally after the loop ends: the close sequence, QUIT awaiting the
service-closing reply, the connection close and the completion signal (the
per-channel log report between them writes no wire data and is not part of
the trace). -/
def sessionEpilogue : List SvdrpAct :=
  closeSeq ++
  [SvdrpAct.write "QUIT\r\n", SvdrpAct.waitReply VDR_SC_SERVICE_CLOSING,
   SvdrpAct.closeConn, SvdrpAct.signalDone]

/-- The full wire trace of one vdr_epg_load run over a queue holding the
given events: prologue, loop, epilogue.  none models a process abort from
an out-of-range slice. -/
def vdr_epg_load_trace (chans : List (String × VDRChannel))
    (es : List VDREPGEvent) : Option (List SvdrpAct) :=
  match vdr_epg_load_loop chans initialSessionState es with
  | none => none
  | some (tr, _) => some (sessionPrologue ++ tr ++ sessionEpilogue)

/-- The unguarded slice data[0:3] of svdrp_wait_for_reply (source line 361)
taking the status code off one reply line. -/
def svdrp_reply_status (data : String) : Option String :=
  goSlice data 0 3

/-- Tests whether a session action is the open-handshake PUTE write. -/
def isOpenWrite : SvdrpAct → Bool
  | SvdrpAct.write s => s == "PUTE\r\n"
  | _ => false

/-- Tests whether a session action is a write whose first line is a C
channel header.  Only the first body write of a block starts with the two
characters C and space; every other write of the session starts with a
different character. -/
def isHeaderWrite : SvdrpAct → Bool
  | SvdrpAct.write s => List.isPrefixOf ['C', ' '] s.data
  | _ => false

/-- Tests whether a session action is the QUIT write. -/
def isQuitWrite : SvdrpAct → Bool
  | SvdrpAct.write s => s == "QUIT\r\n"
  | _ => false

/-- One record of the XML document in order: a channel element or a
programme element, as dispatched by the decoder loop in main. -/
inductive XMLRecord where
  | channel (ch : Channel)
  | programme (p : Programme)
deriving DecidableEq

/-- State threaded through the decoder loop of main: the channel directory
(var channels, loaded once before the loop), the xmltvid2callsign map built
by cross-reference resolution, and the sequence of events sent into the
comm queue so far, in order. -/
structure MainState where
  channels : List (String × VDRChannel)
  xmltvid2callsign : List (String × String)
  queue : List VDREPGEvent
deriving DecidableEq

/-- Go map write m[k] = v on a string-valued map; a later write to the same
key shadows the earlier entry for lookup. -/
def mapSetStr (m : List (String × String)) (k v : String) : List (String × String) :=
  (k, v) :: m

/-- Cross-reference resolution for one channel element (source lines
616-625): scan the display names in order; on the first name that is a key
of the channel directory, record a mapping from the XML channel id to the
call sign of the matched descriptor and stop.  The Go statements el.Aliases
= make(...) and copy(el.Aliases, ch.Names) write the display-name list into
el, but el is the local copy produced by the map read channels[name], so
the directory entry itself is not modified; the embedding mirrors that with
a local binding that is discarded except for its CallSign field. -/
def crossRefChannel (chans : List (String × VDRChannel))
    (x2c : List (String × String)) (ch : Channel) : List (String × String) :=
  match ch.Names.find? (fun name => (chans.lookup name).isSome) with
  | some name =>
    match chans.lookup name with
    | some el =>
      let el := { el with Aliases := ch.Names }
      mapSetStr x2c ch.Id el.CallSign
    | none => x2c
  | none => x2c

/-- Construction of one VDREPGEvent from a programme element (source lines
630-644): field copies, the call-sign lookup with empty-string default, the
rating lookup with zero default, and one genre-table lookup per category
appended in order with the Go zero value 0 standing in for a missing
key. -/
def translateProgramme (x2c : List (String × String)) (p : Programme) : VDREPGEvent :=
  { CChannel := p.Channel
    ChannelCallSign := goMapGetStr x2c p.Channel
    EEventId := 0
    EEStartTime := p.Start
    EEStopTime := p.Stop
    EEDuration := p.Stop
    TTitle := p.Title
    SSubTitle := p.SubTitle
    DDescription := p.Description
    GGenres := p.Categories.map (fun val => goMapGetNat genres val)
    RRating := goMapGetNat ratings p.Rating }

/-- One iteration of the decoder loop of main on a decoded element: a
channel element runs cross-reference resolution; a programme element is
translated and sent into the queue.  The channel directory is read in both
branches and written in neither. -/
def mainStep (st : MainState) : XMLRecord → MainState
  | XMLRecord.channel ch =>
    { st with xmltvid2callsign := crossRefChannel st.channels st.xmltvid2callsign ch }
  | XMLRecord.programme p =>
    { st with queue := st.queue ++ [translateProgramme st.xmltvid2callsign p] }

/-- The whole decoder loop of main over the document records in order. -/
def mainLoop (st : MainState) (rs : List XMLRecord) : MainState :=
  rs.foldl mainStep st

/-- Concrete descriptor fixture: the terrestrial example channel of the
specification, call sign WCVB, frequency 474000, all ids zero except
ServiceId 3. -/
def chW : VDRChannel :=
  { Name := "ABC", Aliases := [], CallSign := "WCVB", Number := "",
    Frequency := "474000", Param := "M10", Source := "T", Srate := "0",
    VPID := "49", APID := "0", TPID := "0", CondAccess := "0",
    ServiceId := "3", NetworkId := "0", TransportId := "0", RadioId := "0" }

/-- Concrete descriptor fixture with the empty call sign, as produced by a
channels.conf line whose name field has an empty second comma entry. -/
def chE : VDRChannel :=
  { chW with CallSign := "" }

/-- Concrete event fixture for call sign WCVB with a one-hour programme
starting 1970-02-15 12:15:00 UTC, whose start instant 3932100 is exactly
65535 minutes after the epoch. -/
def evW : VDREPGEvent :=
  { CChannel := "x1", ChannelCallSign := "WCVB", EEventId := 0,
    EEStartTime := "19700215121500", EEStopTime := "19700215131500",
    EEDuration := "19700215131500", TTitle := "t", SSubTitle := "",
    DDescription := "d", GGenres := [], RRating := 0 }

/-- Concrete event fixture identical to evW except for the empty call
sign. -/
def evE : VDREPGEvent :=
  { evW with ChannelCallSign := "" }

/-- Concrete programme fixture whose single category has no genre-table
entry. -/
def progU : Programme :=
  { Start := "19700215121500", Stop := "19700215131500", Channel := "x9",
    Title := "t", SubTitle := "", Description := "d", Credits := "",
    Date := "", Categories := ["Cooking Show"], Rating := "" }

/-- Concrete channel-element fixture whose first display name matches the
WCVB directory entry and whose second does not. -/
def chanAB : Channel :=
  { Id := "x1", Names := ["WCVB", "ABC"] }

/-- A slice of the parse chain succeeds exactly when its upper bound is
within the string. -/
theorem goSlice_isSome (s : String) (i j : Nat) (hij : i ≤ j) :
    (goSlice s i j).isSome ↔ j ≤ s.length := by
  simp [goSlice, hij]

/-- The timestamp parse of the session succeeds exactly on strings of
length at least 14; any shorter string makes one of the fixed-offset
slices fall out of range. -/
theorem parseTimestampUnix_isSome (d : String) :
    (parseTimestampUnix d).isSome ↔ 14 ≤ d.length := by
  by_cases h4 : 4 ≤ d.length
  · by_cases h6 : 6 ≤ d.length
    · by_cases h8 : 8 ≤ d.length
      · by_cases h10 : 10 ≤ d.length
        · by_cases h12 : 12 ≤ d.length
          · by_cases h14 : 14 ≤ d.length
            · simp [parseTimestampUnix, goSlice, h4, h6, h8, h10, h12, h14]
            · simp [parseTimestampUnix, goSlice, h4, h6, h8, h10, h12, h14]
          · simp [parseTimestampUnix, goSlice, h4, h6, h8, h10, h12] <;> omega
        · simp [parseTimestampUnix, goSlice, h4, h6, h8, h10] <;> omega
      · simp [parseTimestampUnix, goSlice, h4, h6, h8] <;> omega
    · simp [parseTimestampUnix, goSlice, h4, h6] <;> omega
  · simp [parseTimestampUnix, goSlice, h4] <;> omega

/-- C3: for every channel descriptor the derived identifier follows the
two-branch rule of the specification (frequency divided by 1000 with
truncation exactly for sources A and T in the base form; the frequency-free
alternate form whenever TransportId or NetworkId is not the string 0), and
the concrete terrestrial example yields T-0-474-3. -/
theorem c3_channel_identifier :
    (∀ c : VDRChannel, vdr_make_channel_id c = spec_identifier c) ∧
    vdr_make_channel_id chW = "T-0-474-3" := by
  constructor
  · intro c
    unfold vdr_make_channel_id spec_identifier
    by_cases h : c.TransportId ≠ "0" ∨ c.NetworkId ≠ "0"
    · simp only [if_pos h]
    · simp only [if_neg h]
  · rfl

/-- C7: the channel directory component of the main-loop state is never
modified by any number of decoder-loop iterations; at every point of a run
it equals the map the loader produced. -/
theorem c7_directory_immutable (st : MainState) (rs : List XMLRecord) :
    (mainLoop st rs).channels = st.channels := by
  induction rs generalizing st with
  | nil => rfl
  | cons r rs ih =>
    have h1 : (mainStep st r).channels = st.channels := by
      cases r <;> rfl
    calc (mainLoop st (r :: rs)).channels
        = (mainLoop (mainStep st r) rs).channels := rfl
      _ = (mainStep st r).channels := ih _
      _ = st.channels := h1

/-- C2 counterexample: the category Cooking Show has no genre-table entry,
yet the translated event carries the genre list [0] of the same length as
the category list — the unknown category is zero-filled, not dropped as the
claim states. -/
theorem c2_counterexample :
    genres.lookup "Cooking Show" = none ∧
    (translateProgramme [] progU).GGenres = [0] ∧
    (translateProgramme [] progU).GGenres ≠ [] := by
  refine ⟨by decide, by decide, by decide⟩

/-- C2 amended: the genre list is built by one case-sensitive exact table
lookup per category string in document order, with the Go zero value 0
standing in for a category that has no table entry; the genre list is
therefore always exactly as long as the category list, never shorter. -/
theorem c2_amended_genres (x2c : List (String × String)) (p : Programme) :
    (translateProgramme x2c p).GGenres = p.Categories.map (fun v => goMapGetNat genres v) ∧
    (translateProgramme x2c p).GGenres.length = p.Categories.length := by
  refine ⟨rfl, ?_⟩
  simp [translateProgramme]

/-- C1 counterexample: the accepted event starting 1970-02-15 12:15:00 UTC
(Unix second 3932100, exactly 65535 minutes after the epoch) is emitted
with event id 0 on its E line, while the claimed formula floor(start/60)
mod 65536 yields 65535: the source computes the remainder modulo 0xffff,
which is 65535, not 65536. -/
theorem c1_counterexample :
    vdr_epg_load_step [("WCVB", chW)] initialSessionState evW =
      some ([SvdrpAct.write "PUTE\r\n", SvdrpAct.waitReply 354,
             SvdrpAct.write
               "C T-0-474-3 WCVB\r\nE 0 3932100 3600 0\r\nT t\r\nD d\r\nG \r\nR 0\r\ne\r\n"],
            { cur_channel := "WCVB", nchan := [("WCVB", 2)] }) ∧
    parseTimestampUnix evW.EEStartTime = some 3932100 ∧
    session_event_id 3932100 = 0 ∧
    Int.tdiv 3932100 60 % 65536 = 65535 := by
  refine ⟨by decide, by decide, by decide, by decide⟩

/-- C1 amended: the event id emitted on the event-header line is a function
of the start instant alone, equal to floor(start/60) mod 65535 (the source
writes 0xffff, which is 65535); for every nonnegative start instant the
result lies in [0, 65534]. -/
theorem c1_amended_event_id (s : Int) (hs : 0 ≤ s) :
    session_event_id s = Int.tdiv s 60 % 65535 ∧
    0 ≤ session_event_id s ∧ session_event_id s ≤ 65534 := by
  have hq : 0 ≤ Int.tdiv s 60 := Int.tdiv_nonneg hs (by norm_num)
  refine ⟨?_, ?_, ?_⟩
  · unfold session_event_id
    exact Int.tmod_eq_emod hq (by norm_num)
  · unfold session_event_id
    exact Int.tmod_nonneg _ hq
  · have hlt := Int.tmod_lt_of_pos (Int.tdiv s 60) (show (0:Int) < 65535 by norm_num)
    unfold session_event_id
    omega

/-- C1 witness: the amended statement evaluated at start instant
3932100. -/
theorem c1_witness :
    0 ≤ (3932100 : Int) ∧
    (session_event_id 3932100 = Int.tdiv 3932100 60 % 65535 ∧
     0 ≤ session_event_id 3932100 ∧ session_event_id 3932100 ≤ 65534) :=
  ⟨by norm_num, c1_amended_event_id 3932100 (by norm_num)⟩

/-- C9 counterexample: a start of 9999-01-01 (Unix second 253370764800) and
a stop of 1970-01-01 differ by -253370764800 seconds, but the duration the
session computes is -9223372036: time.Sub saturates at the minimum
time.Duration, so a malformed feed spanning more than about 292 years is
clamped, not passed through unchanged. -/
theorem c9_counterexample :
    parseTimestampUnix "99990101000000" = some 253370764800 ∧
    parseTimestampUnix "19700101000000" = some 0 ∧
    session_duration 253370764800 0 = -9223372036 ∧
    (0 : Int) - 253370764800 = -253370764800 ∧
    session_duration 253370764800 0 ≠ (0 : Int) - 253370764800 := by
  refine ⟨by decide, by decide, by decide, by decide, by decide⟩

/-- C9 amended: the duration emitted on the event-header line is stop minus
start in whole seconds with no validation, and a negative difference is
preserved unchanged, provided the difference does not exceed the
time.Duration range of 9223372036 whole seconds in magnitude; beyond that
time.Sub saturates. -/
theorem c9_amended_duration (dtsU dteU : Int)
    (h1 : -9223372036 ≤ dteU - dtsU) (h2 : dteU - dtsU ≤ 9223372036) :
    session_duration dtsU dteU = dteU - dtsU := by
  have hlo : ¬ ((dteU - dtsU) * 1000000000 < minDuration) := by
    unfold minDuration
    omega
  have hhi : ¬ (maxDuration < (dteU - dtsU) * 1000000000) := by
    unfold maxDuration
    omega
  simp only [session_duration, timeSubNs, durationSecondsInt, if_neg hlo, if_neg hhi]
  exact Int.mul_tdiv_cancel _ (by norm_num)

/-- C9 witness: a one-hour negative duration (stop one hour before start)
is passed through as -3600. -/
theorem c9_witness :
    -9223372036 ≤ (0 : Int) - 3600 ∧ (0 : Int) - 3600 ≤ 9223372036 ∧
    session_duration 3600 0 = (0 : Int) - 3600 :=
  ⟨by norm_num, by norm_num, c9_amended_duration 3600 0 (by norm_num) (by norm_num)⟩

/-- C10: the slicing of the session is unguarded and in bounds exactly
under the claimed preconditions: the timestamp parse succeeds iff the
timestamp string has length at least 14, the reply-status slice succeeds
iff the reply line has length at least 3, and a step on an accepted event
avoids the out-of-range branch iff both its timestamp strings have length
at least 14. -/
theorem c10_unguarded_slicing :
    (∀ d : String, (parseTimestampUnix d).isSome ↔ 14 ≤ d.length) ∧
    (∀ data : String, (svdrp_reply_status data).isSome ↔ 3 ≤ data.length) ∧
    (∀ (chans : List (String × VDRChannel)) (st : SessionState) (e : VDREPGEvent),
      (chans.lookup e.ChannelCallSign).isSome = true →
      ((vdr_epg_load_step chans st e).isSome ↔
        14 ≤ e.EEStartTime.length ∧ 14 ≤ e.EEStopTime.length)) := by
  refine ⟨parseTimestampUnix_isSome, ?_, ?_⟩
  · intro data
    have h := goSlice_isSome data 0 3 (by norm_num)
    simpa [svdrp_reply_status] using h
  · intro chans st e hacc
    obtain ⟨c, hc⟩ := Option.isSome_iff_exists.mp hacc
    cases hp1 : parseTimestampUnix e.EEStartTime with
    | none =>
      have h1 : ¬ 14 ≤ e.EEStartTime.length := by
        rw [← parseTimestampUnix_isSome]
        simp [hp1]
      simp [vdr_epg_load_step, hc, hp1, h1]
    | some u1 =>
      have h1 : 14 ≤ e.EEStartTime.length := by
        rw [← parseTimestampUnix_isSome]
        simp [hp1]
      cases hp2 : parseTimestampUnix e.EEStopTime with
      | none =>
        have h2 : ¬ 14 ≤ e.EEStopTime.length := by
          rw [← parseTimestampUnix_isSome]
          simp [hp2]
        simp [vdr_epg_load_step, hc, hp1, hp2, h1, h2]
      | some u2 =>
        have h2 : 14 ≤ e.EEStopTime.length := by
          rw [← parseTimestampUnix_isSome]
          simp [hp2]
        simp [vdr_epg_load_step, hc, hp1, hp2, h1, h2]

/-- C10 witness: the session-level equivalence evaluated on the accepted
event fixture with its 14-character timestamps. -/
theorem c10_witness :
    (([("WCVB", chW)].lookup evW.ChannelCallSign).isSome = true) ∧
    ((vdr_epg_load_step [("WCVB", chW)] initialSessionState evW).isSome ↔
      14 ≤ evW.EEStartTime.length ∧ 14 ≤ evW.EEStopTime.length) :=
  ⟨by decide,
   c10_unguarded_slicing.2.2 [("WCVB", chW)] initialSessionState evW (by decide)⟩

/-- C8: the translator constructs and enqueues an event for every programme
record, including one whose channel id has no call-sign mapping (the call
sign then defaults to the empty string); and the session silently drops
every dequeued event whose call sign has no directory entry: the step
writes nothing, leaves the state unchanged and raises no error. -/
theorem c8_unmapped_events :
    (∀ (st : MainState) (p : Programme),
      (mainStep st (XMLRecord.programme p)).queue =
        st.queue ++ [translateProgramme st.xmltvid2callsign p]) ∧
    (∀ (x2c : List (String × String)) (p : Programme),
      x2c.lookup p.Channel = none → (translateProgramme x2c p).ChannelCallSign = "") ∧
    (∀ (chans : List (String × VDRChannel)) (st : SessionState) (e : VDREPGEvent),
      chans.lookup e.ChannelCallSign = none →
      vdr_epg_load_step chans st e = some ([], st)) := by
  refine ⟨fun st p => rfl, ?_, ?_⟩
  · intro x2c p h
    simp [translateProgramme, goMapGetStr, h]
  · intro chans st e h
    simp [vdr_epg_load_step, h]

/-- C8 witness: the unmapped programme fixture is still translated (with
empty call sign) and the session drops the event fixture when the
directory is empty. -/
theorem c8_witness :
    (([] : List (String × String)).lookup progU.Channel = none) ∧
    (translateProgramme [] progU).ChannelCallSign = "" ∧
    (([] : List (String × VDRChannel)).lookup evW.ChannelCallSign = none) ∧
    vdr_epg_load_step [] initialSessionState evW = some ([], initialSessionState) :=
  ⟨by decide, c8_unmapped_events.2.1 [] progU (by decide), by decide,
   c8_unmapped_events.2.2 [] initialSessionState evW (by decide)⟩

/-- Scanning a name list whose prefix misses the directory finds the first
name that is a directory key. -/
theorem find_lookup_first (chans : List (String × VDRChannel)) (pre post : List String)
    (name : String) (hpre : ∀ n ∈ pre, chans.lookup n = none)
    (hname : (chans.lookup name).isSome = true) :
    (pre ++ name :: post).find? (fun n => (chans.lookup n).isSome) = some name := by
  induction pre with
  | nil =>
    rw [List.nil_append]
    apply List.find?_cons_of_pos
    exact hname
  | cons a as ih =>
    have ha : chans.lookup a = none := hpre a (by simp)
    rw [List.cons_append, List.find?_cons_of_neg]
    · exact ih (fun n hn => hpre n (by simp [hn]))
    · simp [ha]

/-- C6 counterexample: processing the channel element with display names
WCVB and ABC against the directory entry WCVB establishes the id mapping,
but the alias list of the WCVB descriptor held in the directory stays
empty: the source writes the display names only into the local copy
returned by the map read, so nothing is recorded on the directory
descriptor. -/
theorem c6_counterexample :
    chanAB.Names = ["WCVB", "ABC"] ∧
    ((mainStep { channels := [("WCVB", chW)], xmltvid2callsign := [], queue := [] }
        (XMLRecord.channel chanAB)).channels.lookup "WCVB").map VDRChannel.Aliases
      = some [] ∧
    some ([] : List String) ≠ some ["WCVB", "ABC"] ∧
    (mainStep { channels := [("WCVB", chW)], xmltvid2callsign := [], queue := [] }
        (XMLRecord.channel chanAB)).xmltvid2callsign = [("x1", "WCVB")] := by
  refine ⟨by decide, by decide, by decide, by decide⟩

/-- C6 amended: the first display name (in list order) that equals a
directory call sign establishes the mapping from the XML channel id to that
call sign; the display-name list is written only into the local copy of the
descriptor produced by the map read, so the directory and the descriptor it
holds are unchanged. -/
theorem c6_crossref_first_match :
    (∀ (chans : List (String × VDRChannel)) (x2c : List (String × String)) (ch : Channel)
       (pre post : List String) (name : String) (el : VDRChannel),
      ch.Names = pre ++ name :: post →
      (∀ n ∈ pre, chans.lookup n = none) →
      chans.lookup name = some el →
      crossRefChannel chans x2c ch = (ch.Id, el.CallSign) :: x2c) ∧
    (∀ (st : MainState) (ch : Channel),
      (mainStep st (XMLRecord.channel ch)).channels = st.channels) := by
  constructor
  · intro chans x2c ch pre post name el hnames hpre hel
    have hfind := find_lookup_first chans pre post name hpre (by simp [hel])
    unfold crossRefChannel
    rw [hnames, hfind]
    simp only [hel, mapSetStr]
  · intro st ch
    rfl

/-- C6 witness: the amended statement evaluated on the WCVB fixture, whose
first display name matches immediately. -/
theorem c6_witness :
    chanAB.Names = [] ++ "WCVB" :: ["ABC"] ∧
    [("WCVB", chW)].lookup "WCVB" = some chW ∧
    crossRefChannel [("WCVB", chW)] [] chanAB = [(chanAB.Id, chW.CallSign)] :=
  ⟨by decide, by decide,
   c6_crossref_first_match.1 [("WCVB", chW)] [] chanAB [] ["ABC"] "WCVB" chW
     (by decide) (by simp) (by decide)⟩

/-- The first body write of a freshly opened block starts with the C
channel-header line. -/
theorem isHeaderWrite_open_body (id cs ev : String) :
    isHeaderWrite (SvdrpAct.write
      (((((("C " ++ id) ++ " ") ++ cs) ++ "\r\n") ++ ev) ++ "\r\n")) = true := by
  simp [isHeaderWrite, List.isPrefixOf]

/-- A body write is never the PUTE handshake write: the block-opening body
starts with the character C. -/
theorem isOpenWrite_open_body (id cs ev : String) :
    isOpenWrite (SvdrpAct.write
      (((((("C " ++ id) ++ " ") ++ cs) ++ "\r\n") ++ ev) ++ "\r\n")) = false := by
  have h : (((((("C " ++ id) ++ " ") ++ cs) ++ "\r\n") ++ ev) ++ "\r\n") ≠ "PUTE\r\n" := by
    intro h
    have h2 := congrArg String.data h
    simp at h2
  simp [isOpenWrite, h]

/-- A block-opening body write is never the QUIT write. -/
theorem isQuitWrite_open_body (id cs ev : String) :
    isQuitWrite (SvdrpAct.write
      (((((("C " ++ id) ++ " ") ++ cs) ++ "\r\n") ++ ev) ++ "\r\n")) = false := by
  have h : (((((("C " ++ id) ++ " ") ++ cs) ++ "\r\n") ++ ev) ++ "\r\n") ≠ "QUIT\r\n" := by
    intro h
    have h2 := congrArg String.data h
    simp at h2
  simp [isQuitWrite, h]

/-- A body write inside an already open block carries no header: it starts
with the E event-header line. -/
theorem isHeaderWrite_plain_body (eid dtsU du : Int) (e : VDREPGEvent) :
    isHeaderWrite (SvdrpAct.write
      (eventLines eid dtsU du e ++ "\r\n")) = false := by
  simp [isHeaderWrite, eventLines, List.isPrefixOf]

/-- A body write inside an already open block is not the PUTE write. -/
theorem isOpenWrite_plain_body (eid dtsU du : Int) (e : VDREPGEvent) :
    isOpenWrite (SvdrpAct.write
      (eventLines eid dtsU du e ++ "\r\n")) = false := by
  have h : (eventLines eid dtsU du e ++ "\r\n") ≠ "PUTE\r\n" := by
    intro h
    have h2 := congrArg String.data h
    simp [eventLines] at h2
  simp [isOpenWrite, h]

/-- A body write inside an already open block is not the QUIT write. -/
theorem isQuitWrite_plain_body (eid dtsU du : Int) (e : VDREPGEvent) :
    isQuitWrite (SvdrpAct.write
      (eventLines eid dtsU du e ++ "\r\n")) = false := by
  have h : (eventLines eid dtsU du e ++ "\r\n") ≠ "QUIT\r\n" := by
    intro h
    have h2 := congrArg String.data h
    simp [eventLines] at h2
  simp [isQuitWrite, h]

/-- Unfolded form of an accepted, parseable step: the conditional close
sequence, the conditional open handshake, and the single body write, with
the state update. -/
theorem step_shape (chans : List (String × VDRChannel)) (st : SessionState)
    (e : VDREPGEvent) (c : VDRChannel) (u1 u2 : Int)
    (hc : chans.lookup e.ChannelCallSign = some c)
    (hp1 : parseTimestampUnix e.EEStartTime = some u1)
    (hp2 : parseTimestampUnix e.EEStopTime = some u2) :
    vdr_epg_load_step chans st e =
      some ((if st.cur_channel ≠ "" ∧ st.cur_channel ≠ e.ChannelCallSign then closeSeq else [])
          ++ (if st.cur_channel = "" ∨ st.cur_channel ≠ e.ChannelCallSign then openSeq else [])
          ++ [SvdrpAct.write
              (((if st.cur_channel = "" ∨ st.cur_channel ≠ e.ChannelCallSign then
                   "C " ++ vdr_make_channel_id c ++ " " ++ e.ChannelCallSign ++ "\r\n"
                 else "")
                ++ eventLines (session_event_id u1) u1 (session_duration u1 u2) e) ++ "\r\n")],
        { cur_channel :=
            if st.cur_channel = "" ∨ st.cur_channel ≠ e.ChannelCallSign then e.ChannelCallSign
            else st.cur_channel,
          nchan :=
            nchanBump
              (if st.cur_channel = "" ∨ st.cur_channel ≠ e.ChannelCallSign then
                 nchanBump st.nchan
                   (if st.cur_channel = "" ∨ st.cur_channel ≠ e.ChannelCallSign then
                      e.ChannelCallSign
                    else st.cur_channel)
               else st.nchan)
              (if st.cur_channel = "" ∨ st.cur_channel ≠ e.ChannelCallSign then e.ChannelCallSign
               else st.cur_channel) }) := by
  simp only [vdr_epg_load_step, hc, hp1, hp2]

/-- An accepted event for the already open channel emits exactly one plain
body write and only bumps the event counter. -/
theorem step_same_channel (chans : List (String × VDRChannel)) (st : SessionState)
    (e : VDREPGEvent) (c : VDRChannel) (u1 u2 : Int)
    (hc : chans.lookup e.ChannelCallSign = some c)
    (hp1 : parseTimestampUnix e.EEStartTime = some u1)
    (hp2 : parseTimestampUnix e.EEStopTime = some u2)
    (hcur : st.cur_channel = e.ChannelCallSign)
    (hne : e.ChannelCallSign ≠ "") :
    vdr_epg_load_step chans st e =
      some ([SvdrpAct.write
              ((("" : String)
                ++ eventLines (session_event_id u1) u1 (session_duration u1 u2) e) ++ "\r\n")],
        { cur_channel := st.cur_channel, nchan := nchanBump st.nchan st.cur_channel }) := by
  rw [step_shape chans st e c u1 u2 hc hp1 hp2]
  rw [hcur]
  simp [hne]

/-- An accepted event while no block is open emits the open handshake and
the header-carrying body write. -/
theorem step_open_from_ready (chans : List (String × VDRChannel)) (st : SessionState)
    (e : VDREPGEvent) (c : VDRChannel) (u1 u2 : Int)
    (hc : chans.lookup e.ChannelCallSign = some c)
    (hp1 : parseTimestampUnix e.EEStartTime = some u1)
    (hp2 : parseTimestampUnix e.EEStopTime = some u2)
    (hcur : st.cur_channel = "") :
    vdr_epg_load_step chans st e =
      some (openSeq
          ++ [SvdrpAct.write
              ((("C " ++ vdr_make_channel_id c ++ " " ++ e.ChannelCallSign ++ "\r\n")
                ++ eventLines (session_event_id u1) u1 (session_duration u1 u2) e) ++ "\r\n")],
        { cur_channel := e.ChannelCallSign,
          nchan := nchanBump (nchanBump st.nchan e.ChannelCallSign) e.ChannelCallSign }) := by
  rw [step_shape chans st e c u1 u2 hc hp1 hp2]
  rw [hcur]
  simp

/-- An accepted event whose call sign differs from the open channel closes
the block first, then opens the new one and writes the header-carrying
body. -/
theorem step_change_channel (chans : List (String × VDRChannel)) (st : SessionState)
    (e : VDREPGEvent) (c : VDRChannel) (u1 u2 : Int)
    (hc : chans.lookup e.ChannelCallSign = some c)
    (hp1 : parseTimestampUnix e.EEStartTime = some u1)
    (hp2 : parseTimestampUnix e.EEStopTime = some u2)
    (hcur : st.cur_channel ≠ "")
    (hdiff : st.cur_channel ≠ e.ChannelCallSign) :
    vdr_epg_load_step chans st e =
      some (closeSeq ++ openSeq
          ++ [SvdrpAct.write
              ((("C " ++ vdr_make_channel_id c ++ " " ++ e.ChannelCallSign ++ "\r\n")
                ++ eventLines (session_event_id u1) u1 (session_duration u1 u2) e) ++ "\r\n")],
        { cur_channel := e.ChannelCallSign,
          nchan := nchanBump (nchanBump st.nchan e.ChannelCallSign) e.ChannelCallSign }) := by
  rw [step_shape chans st e c u1 u2 hc hp1 hp2]
  simp [hcur, hdiff]

/-- The close sequence contains no PUTE write. -/
theorem countP_isOpenWrite_closeSeq : List.countP isOpenWrite closeSeq = 0 := by decide

/-- The open handshake contains exactly one PUTE write. -/
theorem countP_isOpenWrite_openSeq : List.countP isOpenWrite openSeq = 1 := by decide

/-- The close sequence contains no header write. -/
theorem countP_isHeaderWrite_closeSeq : List.countP isHeaderWrite closeSeq = 0 := by decide

/-- The open handshake contains no header write. -/
theorem countP_isHeaderWrite_openSeq : List.countP isHeaderWrite openSeq = 0 := by decide

/-- The close sequence contains no QUIT write. -/
theorem countP_isQuitWrite_closeSeq : List.countP isQuitWrite closeSeq = 0 := by decide

/-- The open handshake contains no QUIT write. -/
theorem countP_isQuitWrite_openSeq : List.countP isQuitWrite openSeq = 0 := by decide

/-- The connection prologue contains no QUIT write. -/
theorem countP_isQuitWrite_prologue : List.countP isQuitWrite sessionPrologue = 0 := by decide

/-- The end-of-input tail contains exactly one QUIT write. -/
theorem countP_isQuitWrite_epilogue : List.countP isQuitWrite sessionEpilogue = 1 := by decide

/-- C4 counterexample: with the reachable directory entry whose call sign
is the empty string, two consecutive accepted events with that same call
sign produce two open handshakes and two channel header lines, not one:
the session encodes no-open-block as the empty cur_channel, so an empty
call sign defeats the block tracking. -/
theorem c4_counterexample :
    ([("", chE)].lookup evE.ChannelCallSign).isSome = true ∧
    vdr_epg_load_loop [("", chE)] initialSessionState [evE, evE] =
      some ([SvdrpAct.write "PUTE\r\n", SvdrpAct.waitReply 354,
             SvdrpAct.write
               "C T-0-474-3 \r\nE 0 3932100 3600 0\r\nT t\r\nD d\r\nG \r\nR 0\r\ne\r\n",
             SvdrpAct.write "PUTE\r\n", SvdrpAct.waitReply 354,
             SvdrpAct.write
               "C T-0-474-3 \r\nE 0 3932100 3600 0\r\nT t\r\nD d\r\nG \r\nR 0\r\ne\r\n"],
            { cur_channel := "", nchan := [("", 4)] }) ∧
    List.countP isOpenWrite
      [SvdrpAct.write "PUTE\r\n", SvdrpAct.waitReply 354,
       SvdrpAct.write
         "C T-0-474-3 \r\nE 0 3932100 3600 0\r\nT t\r\nD d\r\nG \r\nR 0\r\ne\r\n",
       SvdrpAct.write "PUTE\r\n", SvdrpAct.waitReply 354,
       SvdrpAct.write
         "C T-0-474-3 \r\nE 0 3932100 3600 0\r\nT t\r\nD d\r\nG \r\nR 0\r\ne\r\n"] = 2 ∧
    List.countP isHeaderWrite
      [SvdrpAct.write "PUTE\r\n", SvdrpAct.waitReply 354,
       SvdrpAct.write
         "C T-0-474-3 \r\nE 0 3932100 3600 0\r\nT t\r\nD d\r\nG \r\nR 0\r\ne\r\n",
       SvdrpAct.write "PUTE\r\n", SvdrpAct.waitReply 354,
       SvdrpAct.write
         "C T-0-474-3 \r\nE 0 3932100 3600 0\r\nT t\r\nD d\r\nG \r\nR 0\r\ne\r\n"] = 2 := by
  refine ⟨by decide, by decide, by decide, by decide⟩

/-- C4 amended: provided the shared call sign is non-empty, two consecutive
accepted events with the same call sign, entered with some other (or no)
channel open, produce exactly one open handshake and one channel header
line between them; the first step opens the block (preceded by the close
sequence exactly when another block was open) and the second step emits
only a body write. -/
theorem c4_session_block_discipline :
    ∀ (chans : List (String × VDRChannel)) (st : SessionState) (e1 e2 : VDREPGEvent)
      (tr1 tr2 : List SvdrpAct) (st1 st2 : SessionState),
      vdr_epg_load_step chans st e1 = some (tr1, st1) →
      vdr_epg_load_step chans st1 e2 = some (tr2, st2) →
      (chans.lookup e1.ChannelCallSign).isSome = true →
      e2.ChannelCallSign = e1.ChannelCallSign →
      e1.ChannelCallSign ≠ "" →
      st.cur_channel ≠ e1.ChannelCallSign →
      List.countP isOpenWrite (tr1 ++ tr2) = 1 ∧
      List.countP isHeaderWrite (tr1 ++ tr2) = 1 ∧
      (st.cur_channel ≠ "" → ∃ b1, tr1 = closeSeq ++ openSeq ++ [SvdrpAct.write b1]) ∧
      (st.cur_channel = "" → ∃ b1, tr1 = openSeq ++ [SvdrpAct.write b1]) ∧
      (∃ b2, tr2 = [SvdrpAct.write b2]) := by
  intro chans st e1 e2 tr1 tr2 st1 st2 h1 h2 hacc hsame hne hnew
  obtain ⟨c, hc⟩ := Option.isSome_iff_exists.mp hacc
  have hc2 : chans.lookup e2.ChannelCallSign = some c := by
    rw [hsame]
    exact hc
  cases hp1 : parseTimestampUnix e1.EEStartTime with
  | none => simp [vdr_epg_load_step, hc, hp1] at h1
  | some u1 =>
    cases hp2 : parseTimestampUnix e1.EEStopTime with
    | none => simp [vdr_epg_load_step, hc, hp1, hp2] at h1
    | some u2 =>
      by_cases hcur : st.cur_channel = ""
      · rw [step_open_from_ready chans st e1 c u1 u2 hc hp1 hp2 hcur] at h1
        simp only [Option.some.injEq, Prod.mk.injEq] at h1
        obtain ⟨htr1, hst1⟩ := h1
        subst htr1
        subst hst1
        cases hp3 : parseTimestampUnix e2.EEStartTime with
        | none => simp [vdr_epg_load_step, hc2, hp3] at h2
        | some u3 =>
          cases hp4 : parseTimestampUnix e2.EEStopTime with
          | none => simp [vdr_epg_load_step, hc2, hp3, hp4] at h2
          | some u4 =>
            rw [step_same_channel _ _ e2 c u3 u4 hc2 hp3 hp4 (by simp [hsame])
                (by rw [hsame]; exact hne)] at h2
            simp only [Option.some.injEq, Prod.mk.injEq] at h2
            obtain ⟨htr2, hst2⟩ := h2
            subst htr2
            refine ⟨?_, ?_, fun hn => absurd hcur hn, fun _ => ⟨_, rfl⟩, ⟨_, rfl⟩⟩
            · simp [List.countP_append, List.countP_cons, countP_isOpenWrite_openSeq,
                isOpenWrite_open_body, isOpenWrite_plain_body]
            · simp [List.countP_append, List.countP_cons, countP_isHeaderWrite_openSeq,
                isHeaderWrite_open_body, isHeaderWrite_plain_body]
      · rw [step_change_channel chans st e1 c u1 u2 hc hp1 hp2 hcur hnew] at h1
        simp only [Option.some.injEq, Prod.mk.injEq] at h1
        obtain ⟨htr1, hst1⟩ := h1
        subst htr1
        subst hst1
        cases hp3 : parseTimestampUnix e2.EEStartTime with
        | none => simp [vdr_epg_load_step, hc2, hp3] at h2
        | some u3 =>
          cases hp4 : parseTimestampUnix e2.EEStopTime with
          | none => simp [vdr_epg_load_step, hc2, hp3, hp4] at h2
          | some u4 =>
            rw [step_same_channel _ _ e2 c u3 u4 hc2 hp3 hp4 (by simp [hsame])
                (by rw [hsame]; exact hne)] at h2
            simp only [Option.some.injEq, Prod.mk.injEq] at h2
            obtain ⟨htr2, hst2⟩ := h2
            subst htr2
            refine ⟨?_, ?_, fun _ => ⟨_, rfl⟩, fun hn => absurd hn hcur, ⟨_, rfl⟩⟩
            · simp [List.countP_append, List.countP_cons, countP_isOpenWrite_openSeq,
                countP_isOpenWrite_closeSeq, isOpenWrite_open_body, isOpenWrite_plain_body]
            · simp [List.countP_append, List.countP_cons, countP_isHeaderWrite_openSeq,
                countP_isHeaderWrite_closeSeq, isHeaderWrite_open_body, isHeaderWrite_plain_body]

/-- C4 witness: the amended statement evaluated on two consecutive WCVB
events from the initial state. -/
theorem c4_witness :
    List.countP isOpenWrite
      ([SvdrpAct.write "PUTE\r\n", SvdrpAct.waitReply 354,
        SvdrpAct.write
          "C T-0-474-3 WCVB\r\nE 0 3932100 3600 0\r\nT t\r\nD d\r\nG \r\nR 0\r\ne\r\n"] ++
       [SvdrpAct.write "E 0 3932100 3600 0\r\nT t\r\nD d\r\nG \r\nR 0\r\ne\r\n"]) = 1 ∧
    List.countP isHeaderWrite
      ([SvdrpAct.write "PUTE\r\n", SvdrpAct.waitReply 354,
        SvdrpAct.write
          "C T-0-474-3 WCVB\r\nE 0 3932100 3600 0\r\nT t\r\nD d\r\nG \r\nR 0\r\ne\r\n"] ++
       [SvdrpAct.write "E 0 3932100 3600 0\r\nT t\r\nD d\r\nG \r\nR 0\r\ne\r\n"]) = 1 ∧
    (initialSessionState.cur_channel ≠ "" →
      ∃ b1, [SvdrpAct.write "PUTE\r\n", SvdrpAct.waitReply 354,
             SvdrpAct.write
               "C T-0-474-3 WCVB\r\nE 0 3932100 3600 0\r\nT t\r\nD d\r\nG \r\nR 0\r\ne\r\n"]
          = closeSeq ++ openSeq ++ [SvdrpAct.write b1]) ∧
    (initialSessionState.cur_channel = "" →
      ∃ b1, [SvdrpAct.write "PUTE\r\n", SvdrpAct.waitReply 354,
             SvdrpAct.write
               "C T-0-474-3 WCVB\r\nE 0 3932100 3600 0\r\nT t\r\nD d\r\nG \r\nR 0\r\ne\r\n"]
          = openSeq ++ [SvdrpAct.write b1]) ∧
    (∃ b2, [SvdrpAct.write "E 0 3932100 3600 0\r\nT t\r\nD d\r\nG \r\nR 0\r\ne\r\n"]
        = [SvdrpAct.write b2]) :=
  c4_session_block_discipline [("WCVB", chW)] initialSessionState evW evW
    [SvdrpAct.write "PUTE\r\n", SvdrpAct.waitReply 354,
     SvdrpAct.write
       "C T-0-474-3 WCVB\r\nE 0 3932100 3600 0\r\nT t\r\nD d\r\nG \r\nR 0\r\ne\r\n"]
    [SvdrpAct.write "E 0 3932100 3600 0\r\nT t\r\nD d\r\nG \r\nR 0\r\ne\r\n"]
    { cur_channel := "WCVB", nchan := [("WCVB", 2)] }
    { cur_channel := "WCVB", nchan := [("WCVB", 3)] }
    (by decide) (by decide) (by decide) (by decide) (by decide) (by decide)

/-- No single loop iteration ever writes QUIT. -/
theorem step_countP_quit (chans : List (String × VDRChannel)) (st : SessionState)
    (e : VDREPGEvent) (tr : List SvdrpAct) (st1 : SessionState)
    (h : vdr_epg_load_step chans st e = some (tr, st1)) :
    List.countP isQuitWrite tr = 0 := by
  cases hc : chans.lookup e.ChannelCallSign with
  | none =>
    simp only [vdr_epg_load_step, hc, Option.some.injEq, Prod.mk.injEq] at h
    obtain ⟨htr, -⟩ := h
    subst htr
    simp
  | some c =>
    cases hp1 : parseTimestampUnix e.EEStartTime with
    | none => simp [vdr_epg_load_step, hc, hp1] at h
    | some u1 =>
      cases hp2 : parseTimestampUnix e.EEStopTime with
      | none => simp [vdr_epg_load_step, hc, hp1, hp2] at h
      | some u2 =>
        rw [step_shape chans st e c u1 u2 hc hp1 hp2] at h
        simp only [Option.some.injEq, Prod.mk.injEq] at h
        obtain ⟨htr, -⟩ := h
        subst htr
        by_cases hopen : st.cur_channel = "" ∨ st.cur_channel ≠ e.ChannelCallSign
        · by_cases hclose : st.cur_channel ≠ "" ∧ st.cur_channel ≠ e.ChannelCallSign
          · simp [hopen, hclose, List.countP_append, List.countP_cons,
              countP_isQuitWrite_closeSeq, countP_isQuitWrite_openSeq, isQuitWrite_open_body]
          · simp [hopen, hclose, List.countP_append, List.countP_cons,
              countP_isQuitWrite_openSeq, isQuitWrite_open_body]
        · have hclose : ¬ (st.cur_channel ≠ "" ∧ st.cur_channel ≠ e.ChannelCallSign) := by
            intro hcl
            exact hopen (Or.inr hcl.2)
          simp [hopen, hclose, List.countP_append, List.countP_cons, isQuitWrite_plain_body]

/-- No prefix of the consumer loop ever writes QUIT. -/
theorem loop_countP_quit (chans : List (String × VDRChannel)) :
    ∀ (es : List VDREPGEvent) (st : SessionState) (tr : List SvdrpAct) (st2 : SessionState),
      vdr_epg_load_loop chans st es = some (tr, st2) → List.countP isQuitWrite tr = 0 := by
  intro es
  induction es with
  | nil =>
    intro st tr st2 h
    simp only [vdr_epg_load_loop, Option.some.injEq, Prod.mk.injEq] at h
    obtain ⟨htr, -⟩ := h
    subst htr
    simp
  | cons e es ih =>
    intro st tr st2 h
    cases hs : vdr_epg_load_step chans st e with
    | none => simp [vdr_epg_load_loop, hs] at h
    | some p =>
      obtain ⟨tr1, st1⟩ := p
      cases hl : vdr_epg_load_loop chans st1 es with
      | none => simp [vdr_epg_load_loop, hs, hl] at h
      | some q =>
        obtain ⟨tr2, st3⟩ := q
        simp only [vdr_epg_load_loop, hs, hl, Option.some.injEq, Prod.mk.injEq] at h
        obtain ⟨htr, -⟩ := h
        subst htr
        rw [List.countP_append, step_countP_quit chans st e tr1 st1 hs, ih st1 tr2 st3 hl]

/-- C5 counterexample: a run with no events never opens a channel block,
yet its trace still contains the close sequence (the c line, the . line
and the action-OK wait) before QUIT: the source emits the close sequence
unconditionally after the loop, not only when a block is open. -/
theorem c5_counterexample :
    vdr_epg_load_trace [] [] =
      some [SvdrpAct.waitReply 220, SvdrpAct.write "CLRE\r\n", SvdrpAct.waitReply 250,
            SvdrpAct.write "c\r\n", SvdrpAct.write ".\r\n", SvdrpAct.waitReply 250,
            SvdrpAct.write "QUIT\r\n", SvdrpAct.waitReply 221,
            SvdrpAct.closeConn, SvdrpAct.signalDone] ∧
    vdr_epg_load_loop [] initialSessionState [] = some ([], initialSessionState) ∧
    initialSessionState.cur_channel = "" := by
  refine ⟨by decide, by decide, by decide⟩

/-- C5 amended: at end of input the session emits the close sequence
unconditionally — whether or not a channel block is open — then sends QUIT,
awaits the service-closing reply, closes the connection and signals
completion; every completed trace ends with this fixed tail and contains
exactly one QUIT write. -/
theorem c5_end_of_input :
    ∀ (chans : List (String × VDRChannel)) (es : List VDREPGEvent) (tr : List SvdrpAct),
      vdr_epg_load_trace chans es = some tr →
      (∃ pre, tr = pre ++ sessionEpilogue) ∧
      List.countP isQuitWrite tr = 1 := by
  intro chans es tr h
  cases hl : vdr_epg_load_loop chans initialSessionState es with
  | none => simp [vdr_epg_load_trace, hl] at h
  | some p =>
    obtain ⟨ltr, st2⟩ := p
    simp only [vdr_epg_load_trace, Option.some.injEq, hl] at h
    subst h
    constructor
    · exact ⟨sessionPrologue ++ ltr, rfl⟩
    · rw [List.countP_append, List.countP_append, countP_isQuitWrite_prologue,
        countP_isQuitWrite_epilogue, loop_countP_quit chans es initialSessionState ltr st2 hl]

/-- C5 witness: the amended statement evaluated on the empty run. -/
theorem c5_witness :
    (∃ pre,
      [SvdrpAct.waitReply 220, SvdrpAct.write "CLRE\r\n", SvdrpAct.waitReply 250,
       SvdrpAct.write "c\r\n", SvdrpAct.write ".\r\n", SvdrpAct.waitReply 250,
       SvdrpAct.write "QUIT\r\n", SvdrpAct.waitReply 221,
       SvdrpAct.closeConn, SvdrpAct.signalDone] = pre ++ sessionEpilogue) ∧
    List.countP isQuitWrite
      [SvdrpAct.waitReply 220, SvdrpAct.write "CLRE\r\n", SvdrpAct.waitReply 250,
       SvdrpAct.write "c\r\n", SvdrpAct.write ".\r\n", SvdrpAct.waitReply 250,
       SvdrpAct.write "QUIT\r\n", SvdrpAct.waitReply 221,
       SvdrpAct.closeConn, SvdrpAct.signalDone] = 1 :=
  c5_end_of_input [] []
    [SvdrpAct.waitReply 220, SvdrpAct.write "CLRE\r\n", SvdrpAct.waitReply 250,
     SvdrpAct.write "c\r\n", SvdrpAct.write ".\r\n", SvdrpAct.waitReply 250,
     SvdrpAct.write "QUIT\r\n", SvdrpAct.waitReply 221,
     SvdrpAct.closeConn, SvdrpAct.signalDone] (by decide)
